import Mathlib

/-!
Verification development for the multi-domain intelligence platform:
the authentication subsystem (auth.py) and the data-access /
idempotent-ingestion layer (DatabaseManager.py), shallowly embedded.
Python strings are modelled as Lean `String`; Python's `str.split(",")`
and `str.strip()` are embedded as structural functions over `List Char`
so that all definitions are executable by the kernel.
-/

/-- Embedding of Python's `str.split(",")` field splitting: splits a
character list on commas, never returns an empty list (an empty input
gives one empty field, exactly like Python). -/
def fieldsOf : List Char → List (List Char)
  | [] => [[]]
  | c :: rest =>
    match fieldsOf rest with
    | [] => [[]]
    | f :: fs => if c = ',' then [] :: f :: fs else (c :: f) :: fs

/-- Python whitespace characters stripped by `str.strip()`. -/
def isPyWS (c : Char) : Bool := c = ' ' || c = '\n' || c = '\t' || c = '\r'

/-- Embedding of Python's `str.strip()`. -/
def pyStrip (s : String) : String :=
  String.mk (((s.toList.dropWhile isPyWS).reverse.dropWhile isPyWS).reverse)

/-- Embedding of Python's `line.split(",")` on strings. -/
def pySplit (s : String) : List String :=
  (fieldsOf s.toList).map String.mk

/-!
## Password hashing service (bcrypt)

The hashing primitives live in the third-party `bcrypt` library, outside
this repository's sources; only their call sites are in `auth.py`.
Modelled from the spec: `hash(plaintext) -> hash_blob` "generates a fresh
random salt per call, derives a hash that embeds the salt so it can be
later verified without separate salt storage"; `verify` "recomputes over
the embedded salt and compares".  The salt is passed explicitly as a
natural number (modelling `bcrypt.gensalt()`'s randomness), the digest is
an abstract executable stand-in for the bcrypt KDF, and the blob is a
textual encoding that embeds the salt, mirroring the bcrypt modular-crypt
format.  Python `bytes` values and their UTF-8 `decode`/`encode` round
trips are modelled as Lean `String`s.
-/

/-- Modelled from the spec: the bcrypt key-derivation digest over a
plaintext and an embedded salt.  An abstract executable stand-in for the
real KDF; only determinism in `(plaintext, salt)` matters here. -/
def bcryptDigest (p : String) (s : Nat) : Nat :=
  p.toList.foldl (fun a c => (a * 31 + c.toNat) % 97) (s % 97)

/-- Modelled from the spec: `bcrypt.hashpw` — a hash blob that embeds the
salt (unary-encoded) next to the digest, in a `$2b$...`-style format. -/
def bcryptHashpw (p : String) (s : Nat) : String :=
  String.mk
    ('$' :: '2' :: 'b' :: '$' ::
      (List.replicate s 's' ++ '$' :: List.replicate (bcryptDigest p s) 'h'))

/-- Modelled from the spec: parsing a candidate hash blob back into its
embedded salt and digest; `none` on any malformed (truncated or
foreign-format) blob. -/
def parseBcrypt : List Char → Option (Nat × Nat)
  | c1 :: c2 :: c3 :: c4 :: rest =>
    if c1 = '$' ∧ c2 = '2' ∧ c3 = 'b' ∧ c4 = '$' then
      let salt := rest.takeWhile (fun c => c = 's')
      match rest.dropWhile (fun c => c = 's') with
      | c5 :: rest2 =>
        if c5 = '$' ∧ rest2.all (fun c => c = 'h') then
          some (salt.length, rest2.length)
        else none
      | _ => none
    else none
  | _ => none

/-- Modelled from the spec: `bcrypt.checkpw` — recomputes the digest over
the embedded salt and compares.  On a blob that does not parse it raises
`ValueError("Invalid salt")` (the documented behaviour of the bcrypt
library), embedded as `Except.error`. -/
def bcryptCheckpw (p : String) (blob : String) : Except String Bool :=
  match parseBcrypt blob.toList with
  | some (s, d) => .ok (bcryptDigest p s = d)
  | none => .error "Invalid salt"

/-- Embedding of `auth.hash_password`: convert a plain text password into a secure
hashed version.  `bcrypt.gensalt()` is modelled by the explicit `salt`
argument; the returned bytes blob is a `String`. -/
def hash_password (plain_text_password : String) (salt : Nat) : String :=
  bcryptHashpw plain_text_password salt

/-- Embedding of `auth.verify_password`: check if the plain password matches the
stored hashed password.  A bare pass-through to `bcrypt.checkpw`: any
error the library raises propagates to the caller (there is no
try/except in the source). -/
def verify_password (plain_text_password : String) (hashed_password : String) :
    Except String Bool :=
  bcryptCheckpw plain_text_password hashed_password

/-!
## Flat-file credential store (auth.py)

`data/users.txt` is modelled as `Option (List String)`: `none` is a
missing file (Python raises `FileNotFoundError` on read), `some lines`
is its list of newline-terminated lines (without the trailing newline
character, which `strip()` removes anyway).
-/

/-- The first comma-separated field of a stored line after `strip()` —
what `register_user` reads as `parts[0]`.  `split` never returns an
empty list, so `parts[0]` never raises. -/
@[reducible] def lineUsername (l : String) : String := (pySplit (pyStrip l)).headD ""

/-- Embedding of `auth.register_user`: scan the file for the username (a missing file
reads as empty via the `FileNotFoundError` handler), return `False` on a
duplicate, otherwise hash the password and append
`username,hash,role\n`.  `bcrypt.gensalt()` is the explicit `salt`. -/
def register_user (username password role : String) (salt : Nat)
    (file : Option (List String)) : Bool × Option (List String) :=
  let lines := file.getD []
  if ∃ l ∈ lines, lineUsername l = username then
    (false, file)
  else
    let hashed := hash_password password salt
    (true, some (lines ++ [username ++ "," ++ hashed ++ "," ++ role]))

/-- The loop body of `auth.login_user` over the stored lines: skip lines
with fewer than two comma-separated fields, and at the first line whose
first field equals the username, verify and return the stored role
(`parts[2]` if present, else `"user"`) or `None` on mismatch. -/
def scanLogin (username password : String) : List String → Except String (Option String)
  | [] => .ok none
  | line :: rest =>
    let ps := pySplit (pyStrip line)
    if 2 ≤ ps.length then
      if ps.headD "" = username then
        match verify_password password (ps.getD 1 "") with
        | .error e => .error e
        | .ok true => .ok (some (if 2 < ps.length then ps.getD 2 "" else "user"))
        | .ok false => .ok none
      else scanLogin username password rest
    else scanLogin username password rest

/-- Embedding of `auth.login_user`: `None` when the file does not exist, else scan. -/
def login_user (username password : String) (file : Option (List String)) :
    Except String (Option String) :=
  match file with
  | none => .ok none
  | some lines => scanLogin username password lines

/-- Number of stored records whose first field is the given username. -/
def userRecordCount (username : String) (lines : List String) : Nat :=
  (lines.filter (fun l => lineUsername l = username)).length

/-- A line the login loop skips: too few fields, or a different username. -/
def SkippedBy (username : String) (l : String) : Prop :=
  (pySplit (pyStrip l)).length < 2 ∨ lineUsername l ≠ username

instance (username l : String) : Decidable (SkippedBy username l) := by
  unfold SkippedBy; infer_instance

/-!
## Persistence manager (DatabaseManager.py)

Each SQLite table is a list of rows plus the next AUTOINCREMENT id.
SQLite's dynamic typing is modelled with `Option String` column values
(`none` is SQL NULL); under a UNIQUE index two NULLs never conflict, so
key-conflict checks compare `some`-values only.  `cursor.rowcount` of an
UPDATE is the number of rows matched by the WHERE clause, and
`cursor.lastrowid` of a successful INSERT is the fresh id.
-/

structure UserRow where
  id : Nat
  username : String
  password_hash : String
  role : String
deriving Repr, DecidableEq

structure UsersTable where
  rows : List UserRow
  nextId : Nat
deriving Repr, DecidableEq

structure CyberRow where
  id : Nat
  incident_id : Option String
  timestamp : Option String
  severity : Option String
  category : Option String
  status : Option String
  description : Option String
deriving Repr, DecidableEq

structure CyberTable where
  rows : List CyberRow
  nextId : Nat
deriving Repr, DecidableEq

structure TicketRow where
  id : Nat
  ticket_id : Option String
  priority : Option String
  description : Option String
  status : Option String
  assigned_to : Option String
  created_at : Option String
  resolution_time_hours : Option String
deriving Repr, DecidableEq

structure TicketsTable where
  rows : List TicketRow
  nextId : Nat
deriving Repr, DecidableEq

structure DatasetRow where
  id : Nat
  dataset_id : Option String
  name : Option String
  rows : Option String
  columns : Option String
  uploaded_by : Option String
  upload_date : Option String
deriving Repr, DecidableEq

structure DatasetsTable where
  rows : List DatasetRow
  nextId : Nat
deriving Repr, DecidableEq

/-- A fresh table as built by `create_tables` (SQLite rowids start at 1). -/
def emptyCyber : CyberTable := ⟨[], 1⟩

/-- Embedding of `DatabaseManager.create_user`: INSERT into users; `None` on an
`IntegrityError` from the UNIQUE(username) constraint, else the new
row's `lastrowid`. -/
def create_user (t : UsersTable) (username password_hash role : String) :
    Option Nat × UsersTable :=
  if ∃ r ∈ t.rows, r.username = username then (none, t)
  else (some t.nextId,
    ⟨t.rows ++ [⟨t.nextId, username, password_hash, role⟩], t.nextId + 1⟩)

/-- Whether inserting `incident_id = some k` conflicts with the UNIQUE
index on `cyber_incidents(incident_id)`. -/
def MemCyberKey (t : CyberTable) (k : String) : Prop :=
  ∃ r ∈ t.rows, r.incident_id = some k

instance (t : CyberTable) (k : String) : Decidable (MemCyberKey t k) :=
  List.decidableBEx _ t.rows

/-- Embedding of `DatabaseManager.insert_cyber_incident`: auto-generates the natural
key from the clock when not supplied (`genId` stands for
`f"APP-{int(time.time())}"`); `None` on a UNIQUE(incident_id)
violation, else the new row's `lastrowid`. -/
def insert_cyber_incident (t : CyberTable)
    (timestamp severity category status description : Option String)
    (incident_id : Option String) (genId : String) : Option Nat × CyberTable :=
  let iid := incident_id.getD genId
  if MemCyberKey t iid then (none, t)
  else (some t.nextId,
    ⟨t.rows ++ [⟨t.nextId, some iid, timestamp, severity, category, status, description⟩],
     t.nextId + 1⟩)

/-- Whether an optional ticket natural key conflicts with the UNIQUE
index on `it_tickets(ticket_id)`; NULL keys never conflict. -/
def MemTicketKey (t : TicketsTable) (k : Option String) : Prop :=
  match k with
  | none => False
  | some s => ∃ r ∈ t.rows, r.ticket_id = some s

instance (t : TicketsTable) (k : Option String) : Decidable (MemTicketKey t k) :=
  match k with
  | none => isFalse (fun h => h)
  | some _ => List.decidableBEx _ t.rows

/-- Embedding of `DatabaseManager.insert_it_ticket`. -/
def insert_it_ticket (t : TicketsTable) (ticket_id : Option String)
    (priority description status assigned_to created_at : Option String)
    (resolution_time_hours : Option String) : Option Nat × TicketsTable :=
  if MemTicketKey t ticket_id then (none, t)
  else (some t.nextId,
    ⟨t.rows ++ [⟨t.nextId, ticket_id, priority, description, status, assigned_to,
                 created_at, resolution_time_hours⟩], t.nextId + 1⟩)

/-- Whether an optional dataset natural key conflicts with the UNIQUE
index on `datasets_metadata(dataset_id)`. -/
def MemDatasetKey (t : DatasetsTable) (k : Option String) : Prop :=
  match k with
  | none => False
  | some s => ∃ r ∈ t.rows, r.dataset_id = some s

instance (t : DatasetsTable) (k : Option String) : Decidable (MemDatasetKey t k) :=
  match k with
  | none => isFalse (fun h => h)
  | some _ => List.decidableBEx _ t.rows

/-- Embedding of `DatabaseManager.insert_dataset_metadata`. -/
def insert_dataset_metadata (t : DatasetsTable) (dataset_id : Option String)
    (name rws cols uploaded_by upload_date : Option String) :
    Option Nat × DatasetsTable :=
  if MemDatasetKey t dataset_id then (none, t)
  else (some t.nextId,
    ⟨t.rows ++ [⟨t.nextId, dataset_id, name, rws, cols, uploaded_by, upload_date⟩],
     t.nextId + 1⟩)

/-- The `allowed_fields` set of `update_cyber_incident`. -/
def allowedCyberFields : List String :=
  ["incident_id", "timestamp", "severity", "category", "status", "description"]

/-- One `SET key = value` assignment on a cyber_incidents row; a column
name outside the schema leaves the row unchanged (such a name never
reaches the SQL in the source because of the allow-list filter). -/
def setCyberField (name : String) (v : Option String) (r : CyberRow) : CyberRow :=
  if name = "incident_id" then { r with incident_id := v }
  else if name = "timestamp" then { r with timestamp := v }
  else if name = "severity" then { r with severity := v }
  else if name = "category" then { r with category := v }
  else if name = "status" then { r with status := v }
  else if name = "description" then { r with description := v }
  else r

/-- Read a cyber_incidents column by name. -/
def getCyberField (name : String) (r : CyberRow) : Option String :=
  if name = "incident_id" then r.incident_id
  else if name = "timestamp" then r.timestamp
  else if name = "severity" then r.severity
  else if name = "category" then r.category
  else if name = "status" then r.status
  else if name = "description" then r.description
  else none

/-- Embedding of `DatabaseManager.update_cyber_incident`: keyword arguments are the
ordered key/value pairs of the `**kwargs` dict; only allow-listed keys
become SET clauses; no recognised key is a no-op returning `False`;
otherwise the parameterised UPDATE runs and the result is
`rowcount > 0`. -/
def update_cyber_incident (row_id : Nat)
    (kwargs : List (String × Option String)) (t : CyberTable) : Bool × CyberTable :=
  if kwargs = [] then (false, t)
  else
    let sets := kwargs.filter (fun kv => kv.1 ∈ allowedCyberFields)
    if sets = [] then (false, t)
    else
      (decide (∃ r ∈ t.rows, r.id = row_id),
       ⟨t.rows.map (fun r =>
          if r.id = row_id then sets.foldl (fun acc kv => setCyberField kv.1 kv.2 acc) r
          else r),
        t.nextId⟩)

/-- The `allowed_fields` set of `update_it_ticket`. -/
def allowedTicketFields : List String :=
  ["ticket_id", "priority", "description", "status", "assigned_to",
   "created_at", "resolution_time_hours"]

/-- One `SET key = value` assignment on an it_tickets row. -/
def setTicketField (name : String) (v : Option String) (r : TicketRow) : TicketRow :=
  if name = "ticket_id" then { r with ticket_id := v }
  else if name = "priority" then { r with priority := v }
  else if name = "description" then { r with description := v }
  else if name = "status" then { r with status := v }
  else if name = "assigned_to" then { r with assigned_to := v }
  else if name = "created_at" then { r with created_at := v }
  else if name = "resolution_time_hours" then { r with resolution_time_hours := v }
  else r

/-- Read an it_tickets column by name. -/
def getTicketField (name : String) (r : TicketRow) : Option String :=
  if name = "ticket_id" then r.ticket_id
  else if name = "priority" then r.priority
  else if name = "description" then r.description
  else if name = "status" then r.status
  else if name = "assigned_to" then r.assigned_to
  else if name = "created_at" then r.created_at
  else if name = "resolution_time_hours" then r.resolution_time_hours
  else none

/-- Embedding of `DatabaseManager.update_it_ticket`. -/
def update_it_ticket (row_id : Nat)
    (kwargs : List (String × Option String)) (t : TicketsTable) : Bool × TicketsTable :=
  if kwargs = [] then (false, t)
  else
    let sets := kwargs.filter (fun kv => kv.1 ∈ allowedTicketFields)
    if sets = [] then (false, t)
    else
      (decide (∃ r ∈ t.rows, r.id = row_id),
       ⟨t.rows.map (fun r =>
          if r.id = row_id then sets.foldl (fun acc kv => setTicketField kv.1 kv.2 acc) r
          else r),
        t.nextId⟩)

/-!
## Bulk ingestion (CSV loaders)

A parsed CSV batch is a list of records as produced by `csv.DictReader`:
each named field is an `Option String` (`row.get(...)`).  The file
reading and the progress printing around the loop are I/O glue; the
loader below is the loop of `load_cyber_incidents_from_csv`, returning
the `inserted` and `skipped_duplicates` counters with the final table.
-/

structure CyberRec where
  incident_id : Option String
  timestamp : Option String
  severity : Option String
  category : Option String
  status : Option String
  description : Option String
deriving Repr, DecidableEq

/-- The natural key a record contributes, if any: Python's
`if not incident_id: continue` drops both a missing key and an empty
string key. -/
def validKey (r : CyberRec) : Option String :=
  match r.incident_id with
  | none => none
  | some s => if s = "" then none else some s

/-- The row appended by the loader's `INSERT OR IGNORE` on a fresh key. -/
def insertCyberRow (t : CyberTable) (k : String) (r : CyberRec) : CyberTable :=
  ⟨t.rows ++ [⟨t.nextId, some k, r.timestamp, r.severity, r.category, r.status,
               r.description⟩], t.nextId + 1⟩

/-- The loop of `DatabaseManager.load_cyber_incidents_from_csv`:
`INSERT OR IGNORE` keyed on the UNIQUE incident_id index; `rowcount = 1`
increments `inserted`, `rowcount = 0` (ignored duplicate) increments
`skipped_duplicates`; records without a usable key are skipped without
touching either counter.  Returns `(inserted, skipped_duplicates,
table)`. -/
def load_cyber_incidents_from_csv : List CyberRec → CyberTable → Nat × Nat × CyberTable
  | [], t => (0, 0, t)
  | r :: rs, t =>
    match validKey r with
    | none => load_cyber_incidents_from_csv rs t
    | some k =>
      if MemCyberKey t k then
        let out := load_cyber_incidents_from_csv rs t
        (out.1, out.2.1 + 1, out.2.2)
      else
        let out := load_cyber_incidents_from_csv rs (insertCyberRow t k r)
        (out.1 + 1, out.2.1, out.2.2)

/-- The natural keys present in the cyber_incidents table. -/
def cyberKeys (t : CyberTable) : List String :=
  t.rows.filterMap (fun r => r.incident_id)

/-- Reference count of fresh inserts: walk the key list, counting keys
not yet seen, threading the seen-set. -/
def countNew : List String → List String → Nat
  | [], _ => 0
  | k :: ks, seen => if k ∈ seen then countNew ks seen else countNew ks (k :: seen) + 1

lemma takeWhile_replicate_stop (q : Char → Bool) (a b : Char) (n : Nat) (l : List Char)
    (ha : q a = true) (hb : q b = false) :
    (List.replicate n a ++ b :: l).takeWhile q = List.replicate n a := by
  induction n with
  | zero => simp [List.takeWhile, hb]
  | succ n ih => simp [List.replicate_succ, List.takeWhile, ha, ih]

lemma dropWhile_replicate_stop (q : Char → Bool) (a b : Char) (n : Nat) (l : List Char)
    (ha : q a = true) (hb : q b = false) :
    (List.replicate n a ++ b :: l).dropWhile q = b :: l := by
  induction n with
  | zero => simp [List.dropWhile, hb]
  | succ n ih => simp [List.replicate_succ, List.dropWhile, ha, ih]

lemma all_replicate_eq (a : Char) (n : Nat) :
    (List.replicate n a).all (fun c => c = a) = true := by
  induction n with
  | zero => rfl
  | succ n ih => simp [List.replicate_succ, List.all_cons, ih]

/-- The hash blob produced by `bcryptHashpw` parses back to exactly the
salt and digest it embeds. -/
lemma parseBcrypt_hashpw (p : String) (s : Nat) :
    parseBcrypt (bcryptHashpw p s).toList = some (s, bcryptDigest p s) := by
  show parseBcrypt
      ('$' :: '2' :: 'b' :: '$' ::
        (List.replicate s 's' ++ '$' :: List.replicate (bcryptDigest p s) 'h')) = _
  rw [parseBcrypt]
  rw [takeWhile_replicate_stop _ 's' '$' _ _ (by decide) (by decide),
      dropWhile_replicate_stop _ 's' '$' _ _ (by decide) (by decide)]
  simp [all_replicate_eq, List.length_replicate]

/-- Verifying a password against a blob freshly hashed from it succeeds. -/
lemma verify_hash_password (p : String) (s : Nat) :
    verify_password p (hash_password p s) = .ok true := by
  unfold verify_password bcryptCheckpw hash_password
  rw [parseBcrypt_hashpw]
  simp

/-- The salt is recoverable from the blob, so blobs from distinct salts
differ. -/
lemma hash_password_salt_inj (p : String) (s₁ s₂ : Nat)
    (h : hash_password p s₁ = hash_password p s₂) : s₁ = s₂ := by
  have h2 := congrArg (fun b => parseBcrypt b.toList) h
  simp only [hash_password, parseBcrypt_hashpw] at h2
  exact (Prod.mk.injEq _ _ _ _ ▸ Option.some.injEq _ _ ▸ h2).1

/-- C3: for every plaintext `p`, two calls to the hashing operation with
distinct fresh salts produce different hash blobs, yet verifying `p`
against each of the two blobs returns true both times. -/
theorem hash_twice_differs_but_verifies (p : String) (s₁ s₂ : Nat) (h : s₁ ≠ s₂) :
    hash_password p s₁ ≠ hash_password p s₂ ∧
    verify_password p (hash_password p s₁) = .ok true ∧
    verify_password p (hash_password p s₂) = .ok true :=
  ⟨fun he => h (hash_password_salt_inj p s₁ s₂ he),
   verify_hash_password p s₁, verify_hash_password p s₂⟩

/-- Witness for C3 at plaintext "pass123" and salts 0 and 1. -/
theorem hash_twice_differs_but_verifies_witness :
    hash_password "pass123" 0 ≠ hash_password "pass123" 1 ∧
    verify_password "pass123" (hash_password "pass123" 0) = .ok true ∧
    verify_password "pass123" (hash_password "pass123" 1) = .ok true :=
  hash_twice_differs_but_verifies "pass123" 0 1 (by decide)

/-- C4 (the code contradicts this claim): `verify_password` is a bare
pass-through to `bcrypt.checkpw`, so on a malformed (truncated /
foreign-format) hash blob the library's `ValueError("Invalid salt")`
propagates to the caller instead of a closed `false` return. -/
theorem verify_password_malformed_blob_raises :
    verify_password "pw" "xyz" = .error "Invalid salt" ∧
    verify_password "pw" "$2b$tooshort" = .error "Invalid salt" := by
  exact ⟨rfl, rfl⟩

/-- C2: registering a username already present in the store fails and
mutates nothing: the file is returned unchanged, and (in particular) a
record count of one for that username stays at one. -/
theorem register_existing_user_fails (username password role : String) (salt : Nat)
    (lines : List String)
    (hmem : ∃ l ∈ lines, lineUsername l = username)
    (hone : userRecordCount username lines = 1) :
    register_user username password role salt (some lines) = (false, some lines) ∧
    userRecordCount username lines = 1 := by
  refine ⟨?_, hone⟩
  unfold register_user
  simp only [Option.getD_some]
  rw [if_pos hmem]

/-- Witness for C2: re-registering "alice" over a one-record store. -/
theorem register_existing_user_fails_witness :
    register_user "alice" "other12" "user" 5
        (some ["alice," ++ hash_password "pass123" 0 ++ ",admin"]) =
      (false, some ["alice," ++ hash_password "pass123" 0 ++ ",admin"]) ∧
    userRecordCount "alice" ["alice," ++ hash_password "pass123" 0 ++ ",admin"] = 1 :=
  register_existing_user_fails "alice" "other12" "user" 5 _
    (by decide) (by decide)

/-- C9: when the credential file does not exist, `register_user` treats
the store as empty: it hashes the password, creates the file by
appending the single new record, and returns true, for any username,
password, role and salt. -/
theorem register_missing_file_creates (username password role : String) (salt : Nat) :
    register_user username password role salt none =
      (true, some [username ++ "," ++ hash_password password salt ++ "," ++ role]) := by
  unfold register_user
  simp

lemma scanLogin_skip (username password : String) (pre rest : List String)
    (h : ∀ l ∈ pre, SkippedBy username l) :
    scanLogin username password (pre ++ rest) = scanLogin username password rest := by
  induction pre with
  | nil => rfl
  | cons line pre ih =>
    have hline := h line (List.mem_cons_self _ _)
    have hrest : ∀ l ∈ pre, SkippedBy username l :=
      fun l hl => h l (List.mem_cons_of_mem _ hl)
    rw [List.cons_append, scanLogin]
    rcases hline with hlen | hu
    · rw [if_neg (by omega)]
      exact ih hrest
    · by_cases h2 : 2 ≤ (pySplit (pyStrip line)).length
      · rw [if_pos h2, if_neg hu]
        exact ih hrest
      · rw [if_neg h2]
        exact ih hrest

lemma scanLogin_match (username password line : String) (rest : List String)
    (hlen : 2 ≤ (pySplit (pyStrip line)).length)
    (hu : lineUsername line = username) :
    scanLogin username password (line :: rest) =
      match verify_password password ((pySplit (pyStrip line)).getD 1 "") with
      | .error e => .error e
      | .ok true =>
        .ok (some (if 2 < (pySplit (pyStrip line)).length
                   then (pySplit (pyStrip line)).getD 2 "" else "user"))
      | .ok false => .ok none := by
  rw [scanLogin, if_pos hlen, if_pos hu]

/-- C5: `login_user` returns no role when the username is absent from
the store, no role when the stored record's hash does not verify, and
the stored role — defaulting to `"user"` when the record has no third
field — when it does verify. -/
theorem login_user_lookup_and_verify (username password : String) :
    (∀ lines, (∀ l ∈ lines, lineUsername l ≠ username) →
      login_user username password (some lines) = .ok none) ∧
    (∀ pre line post, (∀ l ∈ pre, SkippedBy username l) →
      2 ≤ (pySplit (pyStrip line)).length →
      lineUsername line = username →
      verify_password password ((pySplit (pyStrip line)).getD 1 "") = .ok false →
      login_user username password (some (pre ++ line :: post)) = .ok none) ∧
    (∀ pre line post, (∀ l ∈ pre, SkippedBy username l) →
      2 ≤ (pySplit (pyStrip line)).length →
      lineUsername line = username →
      verify_password password ((pySplit (pyStrip line)).getD 1 "") = .ok true →
      login_user username password (some (pre ++ line :: post)) =
        .ok (some (if 2 < (pySplit (pyStrip line)).length
                   then (pySplit (pyStrip line)).getD 2 "" else "user"))) := by
  refine ⟨?_, ?_, ?_⟩
  · intro lines habs
    show scanLogin username password lines = .ok none
    have : ∀ l ∈ lines, SkippedBy username l := fun l hl => Or.inr (habs l hl)
    have h0 := scanLogin_skip username password lines [] this
    rwa [List.append_nil] at h0
  · intro pre line post hpre hlen hu hv
    show scanLogin username password (pre ++ line :: post) = .ok none
    rw [scanLogin_skip username password pre _ hpre, scanLogin_match _ _ _ _ hlen hu, hv]
  · intro pre line post hpre hlen hu hv
    show scanLogin username password (pre ++ line :: post) = _
    rw [scanLogin_skip username password pre _ hpre, scanLogin_match _ _ _ _ hlen hu, hv]

/-- Witness for C5: an absent username, a wrong password, and a correct
password against a concrete one-record store. -/
theorem login_user_lookup_and_verify_witness :
    login_user "alice" "pass123" (some ["bob," ++ hash_password "pass123" 0 ++ ",admin"]) =
      .ok none ∧
    login_user "bob" "wrong1" (some ["bob," ++ hash_password "pass123" 0 ++ ",admin"]) =
      .ok none ∧
    login_user "bob" "pass123" (some ["bob," ++ hash_password "pass123" 0 ++ ",admin"]) =
      .ok (some "admin") := by
  refine ⟨(login_user_lookup_and_verify "alice" "pass123").1 _ (by decide), ?_, ?_⟩
  · have h := (login_user_lookup_and_verify "bob" "wrong1").2.1
      [] ("bob," ++ hash_password "pass123" 0 ++ ",admin") []
      (by intro l hl; cases hl) (by decide) (by decide) (by rfl)
    simpa using h
  · have h := (login_user_lookup_and_verify "bob" "pass123").2.2
      [] ("bob," ++ hash_password "pass123" 0 ++ ",admin") []
      (by intro l hl; cases hl) (by decide) (by decide) (by rfl)
    simpa using h

/-- C10: with duplicate usernames in the file, only the first
well-formed matching record decides the outcome, whatever comes after
it; earlier records with fewer than two fields are skipped without
raising. -/
theorem login_user_first_record_wins (username password : String)
    (pre post : List String) (line : String)
    (hpre : ∀ l ∈ pre, SkippedBy username l)
    (hlen : 2 ≤ (pySplit (pyStrip line)).length)
    (hu : lineUsername line = username) :
    (verify_password password ((pySplit (pyStrip line)).getD 1 "") = .ok true →
      login_user username password (some (pre ++ line :: post)) =
        .ok (some (if 2 < (pySplit (pyStrip line)).length
                   then (pySplit (pyStrip line)).getD 2 "" else "user"))) ∧
    (verify_password password ((pySplit (pyStrip line)).getD 1 "") = .ok false →
      login_user username password (some (pre ++ line :: post)) = .ok none) := by
  constructor
  · intro hv
    show scanLogin username password (pre ++ line :: post) = _
    rw [scanLogin_skip username password pre _ hpre, scanLogin_match _ _ _ _ hlen hu, hv]
  · intro hv
    show scanLogin username password (pre ++ line :: post) = _
    rw [scanLogin_skip username password pre _ hpre, scanLogin_match _ _ _ _ hlen hu, hv]

/-- Witness for C10: a malformed short line mentioning the username and
a later conflicting record are both ignored in favour of the first
well-formed record. -/
theorem login_user_first_record_wins_witness :
    login_user "bob" "pass123"
      (some ["bob", "bob," ++ hash_password "pass123" 0 ++ ",admin", "bob,zzz,user"]) =
      .ok (some "admin") := by
  have h := login_user_first_record_wins "bob" "pass123"
    ["bob"] ["bob,zzz,user"] ("bob," ++ hash_password "pass123" 0 ++ ",admin")
    (by decide) (by decide) (by decide)
  have h2 := h.1 (by rfl)
  simpa using h2

/-- Column-level frame facts for a single cyber_incidents SET clause. -/
lemma setCyberField_frame (f : String) (hf : f ∈ allowedCyberFields)
    (v : Option String) (r : CyberRow) :
    (setCyberField f v r).id = r.id ∧
    getCyberField f (setCyberField f v r) = v ∧
    ∀ g ∈ allowedCyberFields, g ≠ f →
      getCyberField g (setCyberField f v r) = getCyberField g r := by
  fin_cases hf <;>
    · refine ⟨by simp [setCyberField], by simp [setCyberField, getCyberField], ?_⟩
      intro g hg hne
      fin_cases hg <;> simp_all [setCyberField, getCyberField]

/-- Column-level frame facts for a single it_tickets SET clause. -/
lemma setTicketField_frame (f : String) (hf : f ∈ allowedTicketFields)
    (v : Option String) (r : TicketRow) :
    (setTicketField f v r).id = r.id ∧
    getTicketField f (setTicketField f v r) = v ∧
    ∀ g ∈ allowedTicketFields, g ≠ f →
      getTicketField g (setTicketField f v r) = getTicketField g r := by
  fin_cases hf <;>
    · refine ⟨by simp [setTicketField], by simp [setTicketField, getTicketField], ?_⟩
      intro g hg hne
      fin_cases hg <;> simp_all [setTicketField, getTicketField]

lemma memCyberKey_iff (t : CyberTable) (k : String) :
    MemCyberKey t k ↔ k ∈ cyberKeys t := by
  simp [MemCyberKey, cyberKeys, List.mem_filterMap]

lemma memCyberKey_insert (t : CyberTable) (k : String) (r : CyberRec) (x : String) :
    MemCyberKey (insertCyberRow t k r) x ↔ MemCyberKey t x ∨ x = k := by
  simp only [MemCyberKey, insertCyberRow, List.mem_append, List.mem_singleton]
  constructor
  · rintro ⟨r', hr' | hr', hx⟩
    · exact Or.inl ⟨r', hr', hx⟩
    · subst hr'; simp at hx; exact Or.inr hx.symm
  · rintro (⟨r', hr', hx⟩ | rfl)
    · exact ⟨r', Or.inl hr', hx⟩
    · exact ⟨_, Or.inr rfl, rfl⟩

lemma cyberKeys_insert (t : CyberTable) (k : String) (r : CyberRec) :
    cyberKeys (insertCyberRow t k r) = cyberKeys t ++ [k] := by
  simp [cyberKeys, insertCyberRow, List.filterMap_append]

lemma countNew_congr : ∀ (l s₁ s₂ : List String), (∀ x, x ∈ s₁ ↔ x ∈ s₂) →
    countNew l s₁ = countNew l s₂
  | [], _, _, _ => rfl
  | k :: ks, s₁, s₂, h => by
    rw [countNew, countNew]
    by_cases hk : k ∈ s₁
    · rw [if_pos hk, if_pos ((h k).1 hk)]
      exact countNew_congr ks s₁ s₂ h
    · rw [if_neg hk, if_neg (fun hc => hk ((h k).2 hc))]
      refine congrArg (· + 1) (countNew_congr ks (k :: s₁) (k :: s₂) ?_)
      intro x
      simp only [List.mem_cons]
      exact or_congr Iff.rfl (h x)

lemma load_inserted_eq_countNew : ∀ (rs : List CyberRec) (t : CyberTable),
    (load_cyber_incidents_from_csv rs t).1 = countNew (rs.filterMap validKey) (cyberKeys t)
  | [], _ => rfl
  | r :: rs, t => by
    cases hv : validKey r with
    | none =>
      simp only [load_cyber_incidents_from_csv, hv, List.filterMap_cons]
      exact load_inserted_eq_countNew rs t
    | some k =>
      simp only [load_cyber_incidents_from_csv, hv, List.filterMap_cons]
      by_cases hm : MemCyberKey t k
      · rw [if_pos hm]
        show (load_cyber_incidents_from_csv rs t).1 = _
        rw [countNew, if_pos ((memCyberKey_iff t k).1 hm)]
        exact load_inserted_eq_countNew rs t
      · rw [if_neg hm]
        show (load_cyber_incidents_from_csv rs (insertCyberRow t k r)).1 + 1 = _
        rw [countNew, if_neg (fun hc => hm ((memCyberKey_iff t k).2 hc))]
        refine congrArg (· + 1) ?_
        rw [load_inserted_eq_countNew rs (insertCyberRow t k r), cyberKeys_insert]
        refine countNew_congr _ _ _ (fun x => ?_)
        simp [List.mem_append, List.mem_cons, or_comm]

lemma countNew_card : ∀ (l seen : List String),
    countNew l seen = (l.toFinset \ seen.toFinset).card
  | [], seen => by simp [countNew]
  | k :: ks, seen => by
    rw [countNew, List.toFinset_cons]
    by_cases hk : k ∈ seen
    · rw [if_pos hk, countNew_card ks seen]
      congr 1
      ext x
      simp only [Finset.mem_sdiff, Finset.mem_insert, List.mem_toFinset]
      constructor
      · rintro ⟨h1, h2⟩
        exact ⟨Or.inr h1, h2⟩
      · rintro ⟨h1 | h1, h2⟩
        · subst h1; exact absurd hk h2
        · exact ⟨h1, h2⟩
    · rw [if_neg hk, countNew_card ks (k :: seen)]
      have hins : insert k ks.toFinset \ seen.toFinset =
          insert k (ks.toFinset \ seen.toFinset) :=
        Finset.insert_sdiff_of_not_mem _ (by simpa using hk)
      have hsd : ks.toFinset \ (k :: seen).toFinset =
          (ks.toFinset \ seen.toFinset).erase k := by
        rw [List.toFinset_cons, Finset.sdiff_insert]
      rw [hins, hsd]
      by_cases hka : k ∈ ks.toFinset \ seen.toFinset
      · rw [Finset.insert_eq_self.2 hka, Finset.card_erase_add_one hka]
      · rw [Finset.card_insert_of_not_mem hka, Finset.erase_eq_of_not_mem hka]

lemma load_rowcount : ∀ (rs : List CyberRec) (t : CyberTable),
    (load_cyber_incidents_from_csv rs t).2.2.rows.length =
      t.rows.length + (load_cyber_incidents_from_csv rs t).1
  | [], t => rfl
  | r :: rs, t => by
    cases hv : validKey r with
    | none =>
      simp only [load_cyber_incidents_from_csv, hv]
      exact load_rowcount rs t
    | some k =>
      simp only [load_cyber_incidents_from_csv, hv]
      by_cases hm : MemCyberKey t k
      · rw [if_pos hm]
        exact load_rowcount rs t
      · rw [if_neg hm]
        show (load_cyber_incidents_from_csv rs (insertCyberRow t k r)).2.2.rows.length =
          t.rows.length + ((load_cyber_incidents_from_csv rs (insertCyberRow t k r)).1 + 1)
        rw [load_rowcount rs (insertCyberRow t k r)]
        simp [insertCyberRow]
        omega

lemma load_mem_key : ∀ (rs : List CyberRec) (t : CyberTable) (k : String),
    MemCyberKey (load_cyber_incidents_from_csv rs t).2.2 k ↔
      MemCyberKey t k ∨ k ∈ rs.filterMap validKey
  | [], t, k => by simp [load_cyber_incidents_from_csv]
  | r :: rs, t, k => by
    cases hv : validKey r with
    | none =>
      simp only [load_cyber_incidents_from_csv, hv, List.filterMap_cons]
      exact load_mem_key rs t k
    | some k0 =>
      simp only [load_cyber_incidents_from_csv, hv, List.filterMap_cons]
      by_cases hm : MemCyberKey t k0
      · rw [if_pos hm]
        show MemCyberKey (load_cyber_incidents_from_csv rs t).2.2 k ↔ _
        rw [load_mem_key rs t k]
        simp only [List.mem_cons]
        constructor
        · rintro (h | h)
          · exact Or.inl h
          · exact Or.inr (Or.inr h)
        · rintro (h | rfl | h)
          · exact Or.inl h
          · exact Or.inl hm
          · exact Or.inr h
      · rw [if_neg hm]
        show MemCyberKey (load_cyber_incidents_from_csv rs (insertCyberRow t k0 r)).2.2 k ↔ _
        rw [load_mem_key rs (insertCyberRow t k0 r) k, memCyberKey_insert]
        simp only [List.mem_cons]
        tauto

/-- C1: bulk ingestion is idempotent.  Starting from the freshly created
empty table, the first load of a batch inserts exactly one row per
distinct non-empty natural key; re-loading the same batch inserts zero
new rows (the model is total, so no error is raised); and the final row
count equals the distinct-key count. -/
theorem load_csv_idempotent (b : List CyberRec) :
    (load_cyber_incidents_from_csv b emptyCyber).1 =
      (b.filterMap validKey).dedup.length ∧
    (load_cyber_incidents_from_csv b
      (load_cyber_incidents_from_csv b emptyCyber).2.2).1 = 0 ∧
    (load_cyber_incidents_from_csv b
      (load_cyber_incidents_from_csv b emptyCyber).2.2).2.2.rows.length =
      (b.filterMap validKey).dedup.length := by
  have hkeys0 : cyberKeys emptyCyber = [] := rfl
  have h1 : (load_cyber_incidents_from_csv b emptyCyber).1 =
      (b.filterMap validKey).dedup.length := by
    rw [load_inserted_eq_countNew, hkeys0, countNew_card]
    simp [List.card_toFinset]
  refine ⟨h1, ?_, ?_⟩
  · rw [load_inserted_eq_countNew, countNew_card]
    rw [Finset.card_eq_zero, Finset.sdiff_eq_empty_iff_subset]
    intro x hx
    rw [List.mem_toFinset] at hx ⊢
    rw [← memCyberKey_iff]
    exact (load_mem_key b emptyCyber x).2 (Or.inr hx)
  · rw [load_rowcount, load_inserted_eq_countNew, countNew_card]
    have hz : ((b.filterMap validKey).toFinset \
        (cyberKeys (load_cyber_incidents_from_csv b emptyCyber).2.2).toFinset).card = 0 := by
      rw [Finset.card_eq_zero, Finset.sdiff_eq_empty_iff_subset]
      intro x hx
      rw [List.mem_toFinset] at hx ⊢
      rw [← memCyberKey_iff]
      exact (load_mem_key b emptyCyber x).2 (Or.inr hx)
    rw [hz, load_rowcount, h1]
    show emptyCyber.rows.length + _ + 0 = _
    simp [emptyCyber]

/-- C8 amended: a record with an empty or missing natural key is skipped
silently — no row is inserted and no error is raised — and it is *not*
counted: neither the `inserted` nor the `skipped_duplicates` counter
moves for it. -/
theorem load_blank_key_skipped_uncounted (r : CyberRec) (rs : List CyberRec)
    (t : CyberTable) (h : validKey r = none) :
    load_cyber_incidents_from_csv (r :: rs) t = load_cyber_incidents_from_csv rs t := by
  simp only [load_cyber_incidents_from_csv, h]

/-- Witness for the amended C8. -/
theorem load_blank_key_skipped_uncounted_witness :
    load_cyber_incidents_from_csv
        [⟨some "", some "2024-01-01", none, none, none, none⟩] emptyCyber =
      load_cyber_incidents_from_csv [] emptyCyber :=
  load_blank_key_skipped_uncounted _ [] emptyCyber (by decide)

/-- C8 counterexample: loading a single record whose natural key is the
empty string leaves both counters at zero — the skipped record is not
counted anywhere, contrary to the claim that skipped records are
counted — and inserts no row. -/
theorem load_blank_key_not_counted_cex :
    load_cyber_incidents_from_csv
        [⟨some "", some "2024-01-01", none, none, none, none⟩] emptyCyber =
      (0, 0, emptyCyber) := by
  rfl

/-- C6: partial updates apply only allow-listed fields (filtering the
keyword set to the allow-list does not change the outcome); zero
allow-listed fields is a no-op returning false with the table unchanged;
otherwise the success flag is true iff some row matched the id
(rowcount > 0); and a single-field update rewrites only that column of
the addressed row, every other column and the row id keeping their prior
values — for both `update_cyber_incident` and `update_it_ticket`. -/
theorem update_allowlist_noop_frame (row_id : Nat)
    (kwargs : List (String × Option String)) (t : CyberTable)
    (row_id2 : Nat) (kwargs2 : List (String × Option String)) (t2 : TicketsTable) :
    (update_cyber_incident row_id kwargs t =
      update_cyber_incident row_id (kwargs.filter (fun kv => kv.1 ∈ allowedCyberFields)) t) ∧
    (kwargs.filter (fun kv => kv.1 ∈ allowedCyberFields) = [] →
      update_cyber_incident row_id kwargs t = (false, t)) ∧
    (kwargs.filter (fun kv => kv.1 ∈ allowedCyberFields) ≠ [] →
      ((update_cyber_incident row_id kwargs t).1 = true ↔ ∃ r ∈ t.rows, r.id = row_id)) ∧
    (∀ f v, f ∈ allowedCyberFields →
      (update_cyber_incident row_id [(f, v)] t).2 =
        ⟨t.rows.map (fun r => if r.id = row_id then setCyberField f v r else r), t.nextId⟩ ∧
      ∀ r : CyberRow,
        (setCyberField f v r).id = r.id ∧
        getCyberField f (setCyberField f v r) = v ∧
        ∀ g ∈ allowedCyberFields, g ≠ f →
          getCyberField g (setCyberField f v r) = getCyberField g r) ∧
    (update_it_ticket row_id2 kwargs2 t2 =
      update_it_ticket row_id2 (kwargs2.filter (fun kv => kv.1 ∈ allowedTicketFields)) t2) ∧
    (kwargs2.filter (fun kv => kv.1 ∈ allowedTicketFields) = [] →
      update_it_ticket row_id2 kwargs2 t2 = (false, t2)) ∧
    (kwargs2.filter (fun kv => kv.1 ∈ allowedTicketFields) ≠ [] →
      ((update_it_ticket row_id2 kwargs2 t2).1 = true ↔ ∃ r ∈ t2.rows, r.id = row_id2)) ∧
    (∀ f v, f ∈ allowedTicketFields →
      (update_it_ticket row_id2 [(f, v)] t2).2 =
        ⟨t2.rows.map (fun r => if r.id = row_id2 then setTicketField f v r else r),
         t2.nextId⟩ ∧
      ∀ r : TicketRow,
        (setTicketField f v r).id = r.id ∧
        getTicketField f (setTicketField f v r) = v ∧
        ∀ g ∈ allowedTicketFields, g ≠ f →
          getTicketField g (setTicketField f v r) = getTicketField g r) := by
  refine ⟨?_, ?_, ?_, ?_, ?_, ?_, ?_, ?_⟩
  · by_cases hk : kwargs = []
    · subst hk; rfl
    · by_cases hs : kwargs.filter (fun kv => kv.1 ∈ allowedCyberFields) = []
      · rw [update_cyber_incident, if_neg hk, if_pos hs, update_cyber_incident,
            if_pos hs]
      · rw [update_cyber_incident, if_neg hk, if_neg hs,
            update_cyber_incident, if_neg hs, List.filter_filter]
        have hand : (fun (a : String × Option String) =>
            decide (a.1 ∈ allowedCyberFields) && decide (a.1 ∈ allowedCyberFields)) =
            (fun a => decide (a.1 ∈ allowedCyberFields)) := by
          funext a; exact Bool.and_self _
        rw [hand, if_neg hs]
  · intro hs
    by_cases hk : kwargs = []
    · rw [update_cyber_incident, if_pos hk]
    · rw [update_cyber_incident, if_neg hk, if_pos hs]
  · intro hs
    have hk : kwargs ≠ [] := by
      intro h; subst h; exact hs rfl
    rw [update_cyber_incident, if_neg hk, if_neg hs]
    simp
  · intro f v hf
    refine ⟨?_, fun r => setCyberField_frame f hf v r⟩
    have hP : decide (f ∈ allowedCyberFields) = true := by simpa using hf
    rw [update_cyber_incident, if_neg (by simp)]
    simp only [List.filter_cons, hP, if_pos, List.filter_nil]
    rw [if_neg (by simp)]
    simp [List.foldl]
  · by_cases hk : kwargs2 = []
    · subst hk; rfl
    · by_cases hs : kwargs2.filter (fun kv => kv.1 ∈ allowedTicketFields) = []
      · rw [update_it_ticket, if_neg hk, if_pos hs, update_it_ticket,
            if_pos hs]
      · rw [update_it_ticket, if_neg hk, if_neg hs,
            update_it_ticket, if_neg hs, List.filter_filter]
        have hand : (fun (a : String × Option String) =>
            decide (a.1 ∈ allowedTicketFields) && decide (a.1 ∈ allowedTicketFields)) =
            (fun a => decide (a.1 ∈ allowedTicketFields)) := by
          funext a; exact Bool.and_self _
        rw [hand, if_neg hs]
  · intro hs
    by_cases hk : kwargs2 = []
    · rw [update_it_ticket, if_pos hk]
    · rw [update_it_ticket, if_neg hk, if_pos hs]
  · intro hs
    have hk : kwargs2 ≠ [] := by
      intro h; subst h; exact hs rfl
    rw [update_it_ticket, if_neg hk, if_neg hs]
    simp
  · intro f v hf
    refine ⟨?_, fun r => setTicketField_frame f hf v r⟩
    have hP : decide (f ∈ allowedTicketFields) = true := by simpa using hf
    rw [update_it_ticket, if_neg (by simp)]
    simp only [List.filter_cons, hP, if_pos, List.filter_nil]
    rw [if_neg (by simp)]
    simp [List.foldl]

/-- Witness for C6: a bogus-field no-op and a status-only update on a
concrete one-row table (for each of the two entities). -/
theorem update_allowlist_noop_frame_witness :
    update_cyber_incident 1 [("bogus", some "x")] ⟨[⟨1, some "INC-1", none, none, none, some "Open", none⟩], 2⟩ =
      (false, ⟨[⟨1, some "INC-1", none, none, none, some "Open", none⟩], 2⟩) ∧
    ((update_cyber_incident 1 [("status", some "Resolved")]
        ⟨[⟨1, some "INC-1", none, none, none, some "Open", none⟩], 2⟩).1 = true ↔
      ∃ r ∈ [(⟨1, some "INC-1", none, none, none, some "Open", none⟩ : CyberRow)], r.id = 1) ∧
    (update_cyber_incident 1 [("status", some "Resolved")]
        ⟨[⟨1, some "INC-1", none, none, none, some "Open", none⟩], 2⟩).2 =
      ⟨[⟨1, some "INC-1", none, none, none, some "Resolved", none⟩], 2⟩ ∧
    update_it_ticket 1 [("bogus", some "x")] ⟨[⟨1, some "T1", none, none, some "Open", none, none, none⟩], 2⟩ =
      (false, ⟨[⟨1, some "T1", none, none, some "Open", none, none, none⟩], 2⟩) ∧
    (update_it_ticket 1 [("status", some "Closed")]
        ⟨[⟨1, some "T1", none, none, some "Open", none, none, none⟩], 2⟩).2 =
      ⟨[⟨1, some "T1", none, none, some "Closed", none, none, none⟩], 2⟩ := by
  have h := update_allowlist_noop_frame 1 [("bogus", some "x")]
    ⟨[⟨1, some "INC-1", none, none, none, some "Open", none⟩], 2⟩
    1 [("bogus", some "x")] ⟨[⟨1, some "T1", none, none, some "Open", none, none, none⟩], 2⟩
  have h2 := update_allowlist_noop_frame 1 [("status", some "Resolved")]
    ⟨[⟨1, some "INC-1", none, none, none, some "Open", none⟩], 2⟩
    1 [("status", some "Closed")] ⟨[⟨1, some "T1", none, none, some "Open", none, none, none⟩], 2⟩
  refine ⟨h.2.1 (by decide), h2.2.2.1 (by decide), ?_, h.2.2.2.2.2.1 (by decide), ?_⟩
  · have h3 := (h2.2.2.2.1 "status" (some "Resolved") (by decide)).1
    rw [h3]; rfl
  · have h4 := (h2.2.2.2.2.2.2.2 "status" (some "Closed") (by decide)).1
    rw [h4]; rfl

/-- C7: every typed insert returns the fresh surrogate id and appends
exactly one row when the natural key (or username) is fresh, and
returns `None` with the table unchanged — an `IntegrityError` is caught,
not propagated — when the uniqueness constraint is violated. -/
theorem typed_insert_id_or_conflict
    (ut : UsersTable) (u ph ro : String)
    (ct : CyberTable) (ts sv cat st de iid : Option String) (gen : String)
    (tt : TicketsTable) (tk pr de2 st2 asg cr rh : Option String)
    (dt : DatasetsTable) (dk nm rws cls ub ud : Option String) :
    ((∃ r ∈ ut.rows, r.username = u) → create_user ut u ph ro = (none, ut)) ∧
    ((∀ r ∈ ut.rows, r.username ≠ u) →
      create_user ut u ph ro =
        (some ut.nextId, ⟨ut.rows ++ [⟨ut.nextId, u, ph, ro⟩], ut.nextId + 1⟩)) ∧
    (MemCyberKey ct (iid.getD gen) →
      insert_cyber_incident ct ts sv cat st de iid gen = (none, ct)) ∧
    (¬ MemCyberKey ct (iid.getD gen) →
      insert_cyber_incident ct ts sv cat st de iid gen =
        (some ct.nextId,
         ⟨ct.rows ++ [⟨ct.nextId, some (iid.getD gen), ts, sv, cat, st, de⟩],
          ct.nextId + 1⟩)) ∧
    (MemTicketKey tt tk →
      insert_it_ticket tt tk pr de2 st2 asg cr rh = (none, tt)) ∧
    (¬ MemTicketKey tt tk →
      insert_it_ticket tt tk pr de2 st2 asg cr rh =
        (some tt.nextId,
         ⟨tt.rows ++ [⟨tt.nextId, tk, pr, de2, st2, asg, cr, rh⟩], tt.nextId + 1⟩)) ∧
    (MemDatasetKey dt dk →
      insert_dataset_metadata dt dk nm rws cls ub ud = (none, dt)) ∧
    (¬ MemDatasetKey dt dk →
      insert_dataset_metadata dt dk nm rws cls ub ud =
        (some dt.nextId,
         ⟨dt.rows ++ [⟨dt.nextId, dk, nm, rws, cls, ub, ud⟩], dt.nextId + 1⟩)) := by
  refine ⟨?_, ?_, ?_, ?_, ?_, ?_, ?_, ?_⟩ <;> intro h
  · rw [create_user, if_pos h]
  · rw [create_user, if_neg (by simpa using h)]
  · rw [insert_cyber_incident, if_pos h]
  · rw [insert_cyber_incident, if_neg h]
  · rw [insert_it_ticket, if_pos h]
  · rw [insert_it_ticket, if_neg h]
  · rw [insert_dataset_metadata, if_pos h]
  · rw [insert_dataset_metadata, if_neg h]

/-- Witness for C7: one conflicting and one fresh insert per table. -/
theorem typed_insert_id_or_conflict_witness :
    create_user ⟨[⟨1, "alice", "h", "admin"⟩], 2⟩ "alice" "h2" "user" =
      (none, ⟨[⟨1, "alice", "h", "admin"⟩], 2⟩) ∧
    create_user ⟨[⟨1, "alice", "h", "admin"⟩], 2⟩ "bob" "h2" "user" =
      (some 2, ⟨[⟨1, "alice", "h", "admin"⟩, ⟨2, "bob", "h2", "user"⟩], 3⟩) ∧
    insert_cyber_incident ⟨[⟨1, some "INC-1", none, none, none, none, none⟩], 2⟩
        none none none none none (some "INC-1") "APP-7" =
      (none, ⟨[⟨1, some "INC-1", none, none, none, none, none⟩], 2⟩) ∧
    insert_cyber_incident emptyCyber none none none none none none "APP-7" =
      (some 1, ⟨[⟨1, some "APP-7", none, none, none, none, none⟩], 2⟩) ∧
    insert_it_ticket ⟨[⟨1, some "T1", none, none, none, none, none, none⟩], 2⟩
        (some "T1") none none none none none none =
      (none, ⟨[⟨1, some "T1", none, none, none, none, none, none⟩], 2⟩) ∧
    insert_it_ticket ⟨[], 1⟩ (some "T1") none none none none none none =
      (some 1, ⟨[⟨1, some "T1", none, none, none, none, none, none⟩], 2⟩) ∧
    insert_dataset_metadata ⟨[⟨1, some "D1", none, none, none, none, none⟩], 2⟩
        (some "D1") none none none none none =
      (none, ⟨[⟨1, some "D1", none, none, none, none, none⟩], 2⟩) ∧
    insert_dataset_metadata ⟨[], 1⟩ (some "D1") none none none none none =
      (some 1, ⟨[⟨1, some "D1", none, none, none, none, none⟩], 2⟩) := by
  have h1 := typed_insert_id_or_conflict
    ⟨[⟨1, "alice", "h", "admin"⟩], 2⟩ "alice" "h2" "user"
    ⟨[⟨1, some "INC-1", none, none, none, none, none⟩], 2⟩
    none none none none none (some "INC-1") "APP-7"
    ⟨[⟨1, some "T1", none, none, none, none, none, none⟩], 2⟩
    (some "T1") none none none none none none
    ⟨[⟨1, some "D1", none, none, none, none, none⟩], 2⟩
    (some "D1") none none none none none
  have h2 := typed_insert_id_or_conflict
    ⟨[⟨1, "alice", "h", "admin"⟩], 2⟩ "bob" "h2" "user"
    emptyCyber none none none none none none "APP-7"
    ⟨[], 1⟩ (some "T1") none none none none none none
    ⟨[], 1⟩ (some "D1") none none none none none
  exact ⟨h1.1 (by decide), h2.2.1 (by decide),
         h1.2.2.1 (by decide), h2.2.2.2.1 (by decide),
         h1.2.2.2.2.1 (by decide), h2.2.2.2.2.2.1 (by decide),
         h1.2.2.2.2.2.2.1 (by decide), h2.2.2.2.2.2.2.2 (by decide)⟩
